import Mathlib

/-!
Verification development for the BitrixSDK outbound request pipeline.

The definitions below are a shallow embedding, in Lean 4, of the TypeScript
sources of the repository:

* `src/auth/token-manager.ts`  — class `TokenManager` (credential manager),
* `src/auth/oauth2.ts`         — class `BitrixOAuth2` (token endpoint client),
* `src/rateLimiter/rateLimiter.ts` — class `BitrixRateLimiter`
  (admission controller / rate limiter),
* `src/error/ErrorHandler.ts`  — class `ErrorHandler` (retry orchestrator),
* `src/error/ErrorMapper.ts`   — class `ErrorMapper` (error classifier),
* `src/error/bitrixError.ts`   — class `BitrixError`.

Modelling conventions, used uniformly:

* JavaScript timestamps are integers: `Date.now()` is modelled as an `Int`
  number of milliseconds, `Math.floor(Date.now() / 1000)` as an `Int` number
  of seconds.  Where the source compares the real-valued `Date.now() / 1000`
  against an integer number of seconds `r` (the parsed `operating_reset_at`),
  the comparison `Date.now() / 1000 < r` is embedded as the equivalent
  integer comparison `nowMs < r * 1000`.
* JavaScript string falsiness is modelled by equality with `""`, number
  falsiness by equality with `0`, and `null`/`undefined` by `Option`.
* Mutation of `this` is explicit state passing: a method of a class with
  state type `σ` that may also return a value of type `α` becomes a Lean
  function `… → σ → σ × α` (or just `σ → σ` when it returns nothing).
* A thrown exception is an `Except`/`Option` error value carrying the thrown
  `Error`'s message string.
* JavaScript's cooperative run-to-completion scheduling is used where
  concurrency matters: code between two `await` points runs atomically.
-/

/-! ## String helpers

`String.prototype.includes(pat)` from JavaScript, implemented over the
character list of the string so that it evaluates inside the kernel. -/

/-- Does the character list `s` start with the character list `pat`? -/
def startsWithChars : List Char → List Char → Bool
  | [], _ => true
  | _ :: _, [] => false
  | p :: ps, c :: cs => p == c && startsWithChars ps cs

/-- Does the character list `s` contain `pat` as a contiguous sublist? -/
def charsContain (pat : List Char) : List Char → Bool
  | [] => pat.isEmpty
  | c :: cs => startsWithChars pat (c :: cs) || charsContain pat cs

/-- JavaScript `s.includes(pat)` for non-empty `pat`. -/
def jsIncludes (s pat : String) : Bool :=
  charsContain pat.data s.data

/-! ## Data model: token envelope and `TokenManager` state

From `src/auth/oauth2.ts` (`interface TokenResponse`) and the private fields
of `TokenManager` in `src/auth/token-manager.ts`. -/

/-- The token envelope returned by the token endpoint
(`interface TokenResponse` in `src/auth/oauth2.ts`). -/
structure TokenResponse where
  access_token : String
  refresh_token : String
  expires_in : Int
  scope : String
  domain : String
  server_endpoint : String
deriving DecidableEq, Repr

/-- The mutable state of `TokenManager`: the held token envelope and the
second-resolution timestamp recorded when it was assigned.  (The in-flight
`refreshPromise` marker is modelled separately, in the single-flight system
below, because it only matters under interleaving.) -/
structure TMState where
  tokens : Option TokenResponse
  tokenIssuedAt : Option Int
deriving DecidableEq, Repr

/-- `TokenManager.isTokenExpired(marginMinutes)` (token-manager.ts lines
138-148): true when no tokens or no issue timestamp are held, otherwise true
iff `issuedAt + expires_in - marginMinutes*60 <= now` (seconds). -/
def isTokenExpired (s : TMState) (now : Int) (marginMinutes : Int) : Bool :=
  match s.tokens, s.tokenIssuedAt with
  | some t, some issued => decide (issued + t.expires_in - marginMinutes * 60 ≤ now)
  | _, _ => true

/-- `TokenManager.isTokenExpiringSoon()` (token-manager.ts lines 131-133):
`isTokenExpired` with the default 5-minute margin. -/
def isTokenExpiringSoon (s : TMState) (now : Int) : Bool :=
  isTokenExpired s now 5

/-- The decision taken by the synchronous prefix of
`TokenManager.getValidToken()` (token-manager.ts lines 28-43): which of the
four control-flow paths the call enters at time `now`. -/
inductive GVTDecision where
  | noTokens
  | expiredNoRefresh
  | refresh
  | ok (accessToken : String)
deriving DecidableEq, Repr

/-- The synchronous prefix of `TokenManager.getValidToken()` (token-manager.ts
lines 28-43): throw when no tokens are held; if the token is expiring soon,
throw when no refresh token is present (falsy = empty string), else enter the
refresh path; otherwise return the current access token. -/
def getValidTokenDecision (s : TMState) (now : Int) : GVTDecision :=
  match s.tokens with
  | none => .noTokens
  | some t =>
    if isTokenExpiringSoon s now then
      if t.refresh_token = "" then .expiredNoRefresh else .refresh
    else
      .ok t.access_token

/-- `TokenManager.validateTokenStructure(tokens)` (token-manager.ts lines
183-194): the fields `access_token`, `expires_in`, `domain` must be truthy
(non-empty string / non-zero number), and `expires_in` must be positive.
Returns the thrown error message, or `none` when the envelope is valid. -/
def validateTokenStructure (t : TokenResponse) : Option String :=
  let missing :=
    (if t.access_token = "" then ["access_token"] else []) ++
    (if t.expires_in = 0 then ["expires_in"] else []) ++
    (if t.domain = "" then ["domain"] else [])
  if missing.length > 0 then
    some ("Invalid token structure. Missing fields: " ++ String.intercalate ", " missing)
  else if t.expires_in ≤ 0 then
    some "Invalid expires_in value in token response"
  else
    none

/-- `TokenManager.setTokens(tokens)` (token-manager.ts lines 81-85): validate
first (throwing before any assignment), then replace the held envelope and
stamp `tokenIssuedAt = now`.  Returns the state after the call together with
the thrown message, if any. -/
def setTokens (s : TMState) (t : TokenResponse) (now : Int) : TMState × Option String :=
  match validateTokenStructure t with
  | some e => (s, some e)
  | none => ({ tokens := some t, tokenIssuedAt := some now }, none)

/-- `TokenManager.clearTokens()` (token-manager.ts lines 97-101). -/
def clearTokens (_ : TMState) : TMState :=
  { tokens := none, tokenIssuedAt := none }

/-! ## The token endpoint client: `BitrixOAuth2.refreshToken`

From `src/auth/oauth2.ts` lines 649-694.  The network reply is modelled
abstractly: either a success body (the parsed token envelope) or a failure
carrying the HTTP status, status text, and the body as either parsed JSON
`{error, error_description}` or unparsable text. -/

/-- The body of a non-ok token endpoint reply: parsed JSON error fields, or
text that fails `JSON.parse`. -/
inductive RefreshErrorBody where
  | json (error : String) (error_description : Option String)
  | notJson
deriving DecidableEq, Repr

/-- A reply of the token endpoint to a refresh request. -/
inductive EndpointReply where
  | success (tokens : TokenResponse)
  | failure (status : Nat) (statusText : String) (body : RefreshErrorBody)
deriving DecidableEq, Repr

/-- `BitrixOAuth2.refreshToken(refreshToken)` (oauth2.ts lines 649-694),
as a function of the endpoint's reply.  On a non-ok reply it computes
`errorMessage = error_description || error || 'Token refresh failed'`; when
the structured error code is exactly `invalid_grant` it instead throws the
fixed message `Refresh token expired or invalid. Re-authentication required.`
(the inner throw is re-thrown by the `catch (parseError)` guard); when the
body does not parse, it throws `Token refresh failed: <status> <statusText>`.
On an ok reply it validates that `access_token` and `expires_in` are truthy. -/
def oauthRefreshToken (r : EndpointReply) : Except String TokenResponse :=
  match r with
  | .success t =>
    if t.access_token = "" ∨ t.expires_in = 0 then
      .error "Invalid refresh token response from server"
    else
      .ok t
  | .failure status statusText body =>
    match body with
    | .json err desc =>
      let errorMessage :=
        match desc with
        | some d => if d = "" then (if err = "" then "Token refresh failed" else err) else d
        | none => if err = "" then "Token refresh failed" else err
      if err = "invalid_grant" then
        .error "Refresh token expired or invalid. Re-authentication required."
      else
        .error errorMessage
    | .notJson =>
      .error ("Token refresh failed: " ++ toString status ++ " " ++ statusText)

/-- `TokenManager.refreshTokens()` (token-manager.ts lines 153-178), as a
function of the outcome of the underlying `oauth.refreshToken` call.  On
success it re-stamps `tokenIssuedAt` and returns the new envelope.  On
failure it clears the held credentials and throws the re-authentication
message iff the caught error's message contains the substring
`invalid_grant`; every other failure is re-thrown unchanged, the held
credentials untouched. -/
def refreshTokens (s : TMState) (oauthResult : Except String TokenResponse)
    (now : Int) : TMState × Except String TokenResponse :=
  match s.tokens with
  | none => (s, .error "No refresh token available")
  | some t =>
    if t.refresh_token = "" then
      (s, .error "No refresh token available")
    else
      match oauthResult with
      | .ok newTokens => ({ s with tokenIssuedAt := some now }, .ok newTokens)
      | .error e =>
        if jsIncludes e "invalid_grant" then
          (clearTokens s, .error "Refresh token expired. Re-authentication required.")
        else
          (s, .error e)

/-- The composed refresh path: `TokenManager.refreshTokens` around
`BitrixOAuth2.refreshToken`, driven by the token endpoint's reply. -/
def refreshViaEndpoint (s : TMState) (reply : EndpointReply) (now : Int) :
    TMState × Except String TokenResponse :=
  refreshTokens s (oauthRefreshToken reply) now

/-! ## Single-flight refresh (`TokenManager.getValidToken`, lines 28-57)

Under JavaScript's cooperative run-to-completion scheduling, the code of
`getValidToken()` from its entry down to `await this.refreshPromise` contains
no `await`, so it executes atomically with respect to all other calls.  That
atomic prefix, for a caller that observes "expiring soon" with a refresh
token present, is: read `this.refreshPromise`; if unset, call
`this.refreshTokens()` (exactly one network refresh per created promise) and
store the resulting promise; then await the stored promise.  After the
promise settles, each caller resumes (in any order) and its `finally` block
clears `this.refreshPromise`.

The shared state is the in-flight promise marker plus a counter of promises
created (= network refresh calls issued). -/

/-- Shared state of the single-flight gate: the identity of the in-flight
refresh promise (if any) and how many refresh promises (network refresh
calls) have been created so far. -/
structure SFSystem where
  inFlight : Option Nat
  promisesCreated : Nat
deriving DecidableEq, Repr

/-- The atomic prefix of one `getValidToken()` call that has observed
"expiring soon, refresh token present" (token-manager.ts lines 41-46):
if no refresh is in flight, start one (issuing one network refresh call),
otherwise join the in-flight one.  Returns the new shared state and the id
of the promise this caller awaits. -/
def sfObserve (s : SFSystem) : SFSystem × Nat :=
  match s.inFlight with
  | some p => (s, p)
  | none => (⟨some s.promisesCreated, s.promisesCreated + 1⟩, s.promisesCreated)

/-- Run the atomic prefixes of `n` concurrent callers, one after another (the
run-to-completion scheduling makes every interleaving equal to some such
sequence, and the callers are symmetric).  Returns the final shared state and
the list of promise ids awaited by the callers. -/
def sfStartAll : Nat → SFSystem → SFSystem × List Nat
  | 0, s => (s, [])
  | n + 1, s =>
    let (s', p) := sfObserve s
    let (s'', ps) := sfStartAll n s'
    (s'', p :: ps)

/-- The shared state before any caller has run: no refresh in flight, no
network refresh call issued. -/
def sfInit : SFSystem := ⟨none, 0⟩

/-- The `finally` block of `getValidToken()` (token-manager.ts line 52),
executed by each caller once the awaited refresh settles, on success or
failure: clear the in-flight marker. -/
def sfSettle (s : SFSystem) : SFSystem :=
  { s with inFlight := none }

/-- What one caller returns (token-manager.ts lines 46-56) as a function of
the settled outcome of the refresh promise it awaited: on success it stores
the refreshed envelope and returns its `access_token`; on failure it
re-throws. -/
def sfCallerReturn (outcome : Except String TokenResponse) : Except String String :=
  match outcome with
  | .ok t => .ok t.access_token
  | .error e => .error e

/-! ## Error classifier (`ErrorMapper`, `src/error/ErrorMapper.ts`)

The canonical error shape is `BitrixErrorDetails` (`src/error/types.ts`);
`BitrixError` carries exactly these fields. -/

/-- The canonical error produced by the classifier
(`interface BitrixErrorDetails`, `src/error/types.ts`). -/
structure BitrixErrorDetails where
  code : String
  message : String
  httpStatus : Nat
  isSystemError : Bool
  isRetryable : Bool
  requiresAuth : Bool
deriving DecidableEq, Repr

/-- One entry of the classifier's static table (every entry of
`ErrorMapper.SYSTEM_ERRORS` populates all five fields). -/
structure SystemErrorEntry where
  httpStatus : Nat
  isSystemError : Bool
  isRetryable : Bool
  requiresAuth : Bool
  message : String
deriving DecidableEq, Repr

/-- `ErrorMapper.SYSTEM_ERRORS` (ErrorMapper.ts lines 5-117): the static
table of well-known remote error codes, verbatim. -/
def SYSTEM_ERRORS : List (String × SystemErrorEntry) :=
  [ ("INTERNAL_SERVER_ERROR",
      ⟨500, true, true, false, "Internal server error has occurred"⟩),
    ("ERROR_UNEXPECTED_ANSWER",
      ⟨500, true, true, false, "Server returned an unexpected response"⟩),
    ("QUERY_LIMIT_EXCEEDED",
      ⟨503, true, true, false, "Request intensity limit has been exceeded"⟩),
    ("OVERLOAD_LIMIT",
      ⟨503, true, true, false, "REST API is blocked due to overload"⟩),
    ("ERROR_BATCH_METHOD_NOT_ALLOWED",
      ⟨405, true, false, false, "Method is not allowed for batch usage"⟩),
    ("ERROR_BATCH_LENGTH_EXCEEDED",
      ⟨400, true, false, false, "Maximum batch length exceeded"⟩),
    ("INVALID_REQUEST",
      ⟨400, true, false, false, "HTTPS protocol is required for calling REST methods"⟩),
    ("NO_AUTH_FOUND",
      ⟨401, true, false, true, "Invalid access token or webhook code"⟩),
    ("expired_token",
      ⟨401, true, false, true, "The provided access token has expired"⟩),
    ("ACCESS_DENIED",
      ⟨403, true, false, false, "REST API is available only on commercial plans"⟩),
    ("INVALID_CREDENTIALS",
      ⟨403, true, false, true, "User lacks required permissions"⟩),
    ("insufficient_scope",
      ⟨403, true, false, true, "The request requires higher privileges than provided by the webhook token"⟩),
    ("user_access_error",
      ⟨403, true, false, false, "User does not have access to the application"⟩),
    ("ERROR_MANIFEST_IS_NOT_AVAILABLE",
      ⟨404, true, false, false, "Manifest is not available"⟩) ]

/-- `ErrorMapper.mapApiError(errorResponse, httpStatus)` (ErrorMapper.ts
lines 139-155).  `description = error_description || 'Unknown error'`;
`httpStatus = systemError?.httpStatus || httpStatus` (falsy = 0 falls back to
the transport status); `isSystemError = !!systemError`;
`isRetryable`/`requiresAuth` come from the table entry when present, else
`false`. -/
def mapApiError (error : String) (error_description : Option String)
    (httpStatus : Nat) : BitrixErrorDetails :=
  let description :=
    match error_description with
    | some d => if d = "" then "Unknown error" else d
    | none => "Unknown error"
  match SYSTEM_ERRORS.lookup error with
  | some e =>
    { code := error
      message := description
      httpStatus := if e.httpStatus = 0 then httpStatus else e.httpStatus
      isSystemError := true
      isRetryable := e.isRetryable
      requiresAuth := e.requiresAuth }
  | none =>
    { code := error
      message := description
      httpStatus := httpStatus
      isSystemError := false
      isRetryable := false
      requiresAuth := false }

/-- `ErrorMapper.mapHttpStatus(httpStatus, responseBody?)` (ErrorMapper.ts
lines 160-229): the fixed switch on the transport HTTP status used when the
response has no structured error body. -/
def mapHttpStatus (httpStatus : Nat) : BitrixErrorDetails :=
  let base : String × String × Bool × Bool :=
    match httpStatus with
    | 400 => ("BAD_REQUEST", "Bad request", false, false)
    | 401 => ("UNAUTHORIZED", "Unauthorized access", false, true)
    | 403 => ("FORBIDDEN", "Access forbidden", false, false)
    | 404 => ("NOT_FOUND", "Resource not found", false, false)
    | 405 => ("METHOD_NOT_ALLOWED", "Method not allowed", false, false)
    | 429 => ("TOO_MANY_REQUESTS", "Too many requests", true, false)
    | 500 => ("INTERNAL_SERVER_ERROR", "Internal server error", true, false)
    | 502 => ("BAD_GATEWAY", "Bad gateway", true, false)
    | 503 => ("SERVICE_UNAVAILABLE", "Service unavailable", true, false)
    | 504 => ("GATEWAY_TIMEOUT", "Gateway timeout", true, false)
    | _ => ("UNKNOWN_HTTP_ERROR", "HTTP " ++ toString httpStatus ++ " error",
            decide (500 ≤ httpStatus), false)
  { code := base.1
    message := base.2.1
    httpStatus := httpStatus
    isSystemError := false
    isRetryable := base.2.2.1
    requiresAuth := base.2.2.2 }

/-- `ErrorMapper.mapHttpResponse(response, responseBody?)` (ErrorMapper.ts
lines 122-134): when the body is a JSON object with a truthy `error` field,
classify via `mapApiError`, otherwise fall back to `mapHttpStatus`. -/
def mapHttpResponse (status : Nat) (body : Option (String × Option String)) :
    BitrixErrorDetails :=
  match body with
  | some (err, desc) =>
    if err = "" then mapHttpStatus status else mapApiError err desc status
  | none => mapHttpStatus status

/-! ## `BitrixError` predicates (`src/error/bitrixError.ts`) -/

/-- `BitrixError.isAuthError()` (bitrixError.ts): `requiresAuth` or one of
the three listed auth codes. -/
def isAuthError (e : BitrixErrorDetails) : Bool :=
  e.requiresAuth ||
    ["NO_AUTH_FOUND", "expired_token", "INVALID_CREDENTIALS"].contains e.code

/-- `BitrixError.isRateLimitError()` (bitrixError.ts). -/
def isRateLimitError (e : BitrixErrorDetails) : Bool :=
  ["QUERY_LIMIT_EXCEEDED", "OVERLOAD_LIMIT"].contains e.code

/-- `BitrixError.getRetryAfter()` (bitrixError.ts): 60000 ms for rate-limit
errors, 5000 ms for HTTP >= 500, else 0. -/
def getRetryAfter (e : BitrixErrorDetails) : Nat :=
  if isRateLimitError e then 60000
  else if 500 ≤ e.httpStatus then 5000
  else 0

/-! ## Retry orchestrator (`ErrorHandler.handleWithRetry`,
`src/error/ErrorHandler.ts` lines 28-72)

The wrapped operation is modelled as an oracle `op : Nat → Except
BitrixErrorDetails α` giving the outcome of each attempt (the thrown errors
are assumed already canonical — `ensureBitrixError` on a `BitrixError` is the
identity).  The run is summarised as a trace recording the final outcome, how
many times each hook fired, the list of inter-attempt sleep durations, and
how many attempts were made. -/

deriving instance DecidableEq for Except

/-- Observable summary of one `handleWithRetry` run. -/
structure RetryTrace (α : Type) where
  result : Except BitrixErrorDetails α
  authHookCalls : Nat
  rateHookCalls : Nat
  sleeps : List Nat
  attemptsMade : Nat
deriving DecidableEq, Repr

/-- Prefix one more attempt onto a trace: `auth`/`rate` hook firings and an
optional sleep that happened before the traced continuation ran. -/
def prependAttempt (auth rate : Nat) (sleep? : Option Nat)
    (t : RetryTrace α) : RetryTrace α :=
  { t with
      authHookCalls := auth + t.authHookCalls
      rateHookCalls := rate + t.rateHookCalls
      sleeps := sleep?.toList ++ t.sleeps
      attemptsMade := t.attemptsMade + 1 }

/-- The `for (attempt = 0; attempt <= maxRetries; attempt++)` loop of
`ErrorHandler.handleWithRetry` (ErrorHandler.ts lines 34-71), from attempt
index `attempt` on, with structural fuel (the caller passes
`maxRetries + 1 - attempt`, which always suffices).  Branch order is the
source's: success returns; on error, last attempt breaks and throws; a
non-retryable error breaks and throws; an auth error fires the auth hook and
continues immediately; otherwise the rate-limit hook fires when applicable,
`delay = lastError.getRetryAfter() || retryDelay` is slept, and the loop
continues. -/
def retryFrom (op : Nat → Except BitrixErrorDetails α)
    (maxRetries retryDelay : Nat) : Nat → Nat → RetryTrace α
  | 0, _ => ⟨.error ⟨"UNREACHABLE", "", 0, false, false, false⟩, 0, 0, [], 0⟩
  | fuel + 1, attempt =>
    match op attempt with
    | .ok v => ⟨.ok v, 0, 0, [], 1⟩
    | .error e =>
      if attempt = maxRetries then ⟨.error e, 0, 0, [], 1⟩
      else if e.isRetryable = false then ⟨.error e, 0, 0, [], 1⟩
      else if isAuthError e then
        prependAttempt 1 0 none (retryFrom op maxRetries retryDelay fuel (attempt + 1))
      else
        let rate := if isRateLimitError e then 1 else 0
        let delay := if getRetryAfter e = 0 then retryDelay else getRetryAfter e
        prependAttempt 0 rate (some delay)
          (retryFrom op maxRetries retryDelay fuel (attempt + 1))

/-- `ErrorHandler.handleWithRetry(operation)` (ErrorHandler.ts lines 28-72):
the full loop starting at attempt 0. -/
def handleWithRetry (op : Nat → Except BitrixErrorDetails α)
    (maxRetries retryDelay : Nat) : RetryTrace α :=
  retryFrom op maxRetries retryDelay (maxRetries + 1) 0

/-! ## Rate limiter (`BitrixRateLimiter`, `src/rateLimiter/rateLimiter.ts`)

State fields from `RateLimitState` plus the class-private `requestQueue` and
`processingQueue`.  The executed unit of work is the caller's closure; the
claims settled here concern admission, dispatch order and the drain-loop flag,
so the work itself is modelled as an opaque dispatch event and its outcome as
a plain success with no `time` payload (making `processResponseTimeInfo` the
identity and leaving `handleRequestError` out of the modelled paths). -/

/-- `interface RateLimitConfig` (rateLimiter.ts lines 1-20). -/
structure RateLimitConfig where
  maxRequestsPerSecond : Nat
  burstLimit : Nat
  maxOperatingTimePerWindow : Int
  operatingTimeWindow : Int
  enableRetry : Bool
  maxRetries : Nat
  retryBackoffStrategy : Bool   -- `true` = exponential, `false` = linear
  retryBaseDelay : Nat
  enableQueueing : Bool
  maxQueueSize : Nat
  queueTimeout : Int
deriving DecidableEq, Repr

/-- The defaults installed by the constructor (rateLimiter.ts lines 52-65). -/
def defaultConfig : RateLimitConfig :=
  { maxRequestsPerSecond := 2
    burstLimit := 50
    maxOperatingTimePerWindow := 480
    operatingTimeWindow := 600
    enableRetry := true
    maxRetries := 3
    retryBackoffStrategy := true
    retryBaseDelay := 1000
    enableQueueing := true
    maxQueueSize := 1000
    queueTimeout := 300000 }

/-- `interface QueuedRequest` (rateLimiter.ts lines 32-41), without the
`params`/`resolve`/`reject` closures (the work and its result channel are
owned by the caller; dispatch is recorded as an event instead). -/
structure QueuedRequest where
  id : String
  method : String
  priority : Int
  timestamp : Int
  retryCount : Nat
deriving DecidableEq, Repr

/-- The mutable state of `BitrixRateLimiter`: the `RateLimitState` record
(rateLimiter.ts lines 22-30, initialised at lines 67-75) merged with the
class fields `requestQueue` and `processingQueue`.  `operatingTimeUsed` and
`operatingWindowStart` are carried but untouched by the modelled paths. -/
structure RLState where
  requestCounter : Nat
  lastRequestTime : Int
  operatingTimeUsed : Int
  operatingWindowStart : Int
  operatingResetAt : Option Int
  blockedMethods : List String
  isBlocked : Bool
  requestQueue : List QueuedRequest
  processingQueue : Bool
deriving DecidableEq, Repr

/-- The state right after the constructor ran at millisecond instant `t0`. -/
def initialRLState (t0 : Int) : RLState :=
  { requestCounter := 0
    lastRequestTime := t0
    operatingTimeUsed := 0
    operatingWindowStart := t0
    operatingResetAt := none
    blockedMethods := []
    isBlocked := false
    requestQueue := []
    processingQueue := false }

/-- The guard `this.state.operatingResetAt && now < this.state.operatingResetAt`
of `canMakeRequest` (rateLimiter.ts line 105), with `now = Date.now()/1000`:
the stored reset instant is truthy (non-zero) and still in the future.  For an
integer `r`, `nowMs / 1000 < r ↔ nowMs < r * 1000`, which is how the
real-valued division is embedded. -/
def blockActive (operatingResetAt : Option Int) (nowMs : Int) : Bool :=
  match operatingResetAt with
  | some r => r != 0 && decide (nowMs < r * 1000)
  | none => false

/-- `BitrixRateLimiter.canMakeRequest(method)` (rateLimiter.ts lines
101-122): a blocked method with an active reset instant is denied; a blocked
method whose block has lapsed is evicted (and the reset instant cleared)
before the counter check; then the request counter is compared against
`burstLimit`, recording `isBlocked`.  Returns the decision and the possibly
mutated state. -/
def canMakeRequest (cfg : RateLimitConfig) (s : RLState) (nowMs : Int)
    (method : String) : Bool × RLState :=
  if s.blockedMethods.contains method then
    if blockActive s.operatingResetAt nowMs then
      (false, s)
    else
      let s1 := { s with
        blockedMethods := s.blockedMethods.erase method
        operatingResetAt := none }
      if cfg.burstLimit ≤ s1.requestCounter then
        (false, { s1 with isBlocked := true })
      else
        (true, { s1 with isBlocked := false })
  else
    if cfg.burstLimit ≤ s.requestCounter then
      (false, { s with isBlocked := true })
    else
      (true, { s with isBlocked := false })

/-- `Set.add` on the blocked-method set, represented as a duplicate-free
list. -/
def blockedMethodsAdd (l : List String) (m : String) : List String :=
  if l.contains m then l else l ++ [m]

/-- `BitrixRateLimiter.handleResourceLimitExceeded(method, error)`
(rateLimiter.ts lines 287-298): add the method to the blocked set and, when
the error message yields a parsed `operating_reset_at` value (the regex match
is modelled as the already-parsed `Option Int`), store it as the reset
instant (unix seconds). -/
def handleResourceLimitExceeded (s : RLState) (method : String)
    (parsedResetAt : Option Int) : RLState :=
  let s1 := { s with blockedMethods := blockedMethodsAdd s.blockedMethods method }
  match parsedResetAt with
  | some r => { s1 with operatingResetAt := some r }
  | none => s1

/-- Observable events of the submission/drain machinery. -/
inductive RLEvent where
  | counterIncremented
  | workDispatched (id : String)
  | admissionWait (method : String)
  | enqueued (id : String)
  | rejectedQueueFull (id : String)
  | expiredInQueue (id : String)
  | timedOutInQueue (id : String)
deriving DecidableEq, Repr

/-- The comparator of `addToQueue` (rateLimiter.ts line 164),
`(a, b) => b.priority - a.priority || a.timestamp - b.timestamp`, as the
ordering relation "a sorts no later than b": higher priority first, equal
priorities by ascending timestamp. -/
def queueLE (a b : QueuedRequest) : Bool :=
  decide (b.priority < a.priority) ||
    (a.priority == b.priority && decide (a.timestamp ≤ b.timestamp))

/-- `BitrixRateLimiter.addToQueue(request)` (rateLimiter.ts lines 156-168):
reject when the queue is at capacity; otherwise push, re-sort the whole queue
by the comparator, and run `cleanupExpiredRequests` (lines 359-372), which
rejects and removes every request older than `queueTimeout`.
`Array.prototype.sort` is a stable sort and the comparator is total, so the
sort is embedded as the stable `List.insertionSort` by the same comparator,
which produces the identical list. -/
def addToQueue (cfg : RateLimitConfig) (s : RLState) (r : QueuedRequest)
    (nowMs : Int) : RLState × List RLEvent :=
  if cfg.maxQueueSize ≤ s.requestQueue.length then
    (s, [.rejectedQueueFull r.id])
  else
    let sorted := List.insertionSort (fun a b => queueLE a b = true) (s.requestQueue ++ [r])
    let expired := sorted.filter fun q => decide (cfg.queueTimeout < nowMs - q.timestamp)
    let kept := sorted.filter fun q => decide (nowMs - q.timestamp ≤ cfg.queueTimeout)
    ({ s with requestQueue := kept },
     .enqueued r.id :: expired.map fun q => .expiredInQueue q.id)

/-- `BitrixRateLimiter.executeQueuedRequest(request)` (rateLimiter.ts lines
208-223): increment the counter and `lastRequestTime`, then run the unit of
work (recorded as a dispatch event; the outcome is a plain success carrying
no `time` payload, so `processResponseTimeInfo` leaves the state unchanged). -/
def executeQueuedRequest (s : RLState) (r : QueuedRequest) (nowMs : Int) :
    RLState × List RLEvent :=
  ({ s with requestCounter := s.requestCounter + 1, lastRequestTime := nowMs },
   [.counterIncremented, .workDispatched r.id])

/-- The `while (this.requestQueue.length > 0)` body of
`BitrixRateLimiter.processQueue` (rateLimiter.ts lines 180-202), with
structural fuel standing for the iterations the loop is given (`none` =
fuel exhausted before the queue emptied, which in the source is the loop
still waiting for admission).  Head older than `queueTimeout`: pop, reject,
continue.  Not admitted: wait (`waitForAvailability`), re-evaluate without
popping.  Admitted: pop and `executeQueuedRequest`.  When the queue empties
the `processingQueue` flag is lowered (line 202). -/
def drainLoop (cfg : RateLimitConfig) (nowMs : Int) :
    Nat → RLState → Option (RLState × List RLEvent)
  | 0, _ => none
  | fuel + 1, s =>
    match s.requestQueue with
    | [] => some ({ s with processingQueue := false }, [])
    | r :: rest =>
      if cfg.queueTimeout < nowMs - r.timestamp then
        (drainLoop cfg nowMs fuel { s with requestQueue := rest }).map
          fun p => (p.1, .timedOutInQueue r.id :: p.2)
      else
        match canMakeRequest cfg s nowMs r.method with
        | (true, s1) =>
          (drainLoop cfg nowMs fuel
            (executeQueuedRequest { s1 with requestQueue := rest } r nowMs).1).map
            fun p =>
              (p.1, (executeQueuedRequest { s1 with requestQueue := rest } r nowMs).2 ++ p.2)
        | (false, s1) =>
          (drainLoop cfg nowMs fuel s1).map
            fun p => (p.1, .admissionWait r.method :: p.2)

/-- `BitrixRateLimiter.processQueue()` (rateLimiter.ts lines 173-203): return
immediately when a drain loop is already running or the queue is empty;
otherwise raise `processingQueue` and drain. -/
def processQueue (cfg : RateLimitConfig) (nowMs : Int) (fuel : Nat)
    (s : RLState) : Option (RLState × List RLEvent) :=
  if s.processingQueue || s.requestQueue.isEmpty then
    some (s, [])
  else
    drainLoop cfg nowMs fuel { s with processingQueue := true }

/-- `BitrixRateLimiter.executeRequest(method, requestFn, priority)`
(rateLimiter.ts lines 127-151): wrap the call into a `QueuedRequest`; with
queueing enabled, enqueue it and kick the drain loop; with queueing disabled,
call `executeQueuedRequest` directly — the source performs no admission check
and no wait on this path. -/
def executeRequestModel (cfg : RateLimitConfig) (s : RLState)
    (r : QueuedRequest) (nowMs : Int) (fuel : Nat) :
    Option (RLState × List RLEvent) :=
  if cfg.enableQueueing then
    let (s1, evs1) := addToQueue cfg s r nowMs
    (processQueue cfg nowMs fuel s1).map fun p => (p.1, evs1 ++ p.2)
  else
    some (executeQueuedRequest s r nowMs)

/-! # Theorems -/

/-- C4: Refresh-margin law.  A held token is usable (not expiring soon under
the default 5-minute margin) iff `now < issuedAt + expires_in - 300`; for
credentials issued at `T` with `expires_in = 3600` and a refresh token
present, `getValidToken` at `T + 3595` enters the refresh path, while at
`T + 1000` it returns the current access token without refreshing. -/
theorem refresh_margin_law (tok : TokenResponse) (issued T now : Int)
    (hrt : tok.refresh_token ≠ "") (he : tok.expires_in = 3600) :
    (isTokenExpired ⟨some tok, some issued⟩ now 5 = false ↔
      now < issued + tok.expires_in - 300) ∧
    getValidTokenDecision ⟨some tok, some T⟩ (T + 3595) = .refresh ∧
    getValidTokenDecision ⟨some tok, some T⟩ (T + 1000) = .ok tok.access_token := by
  refine ⟨?_, ?_, ?_⟩
  · simp only [isTokenExpired, decide_eq_false_iff_not, not_le]
    omega
  · have hexp : isTokenExpiringSoon ⟨some tok, some T⟩ (T + 3595) = true := by
      simp only [isTokenExpiringSoon, isTokenExpired, decide_eq_true_eq, he]
      omega
    simp [getValidTokenDecision, hexp, hrt]
  · have hexp : isTokenExpiringSoon ⟨some tok, some T⟩ (T + 1000) = false := by
      simp only [isTokenExpiringSoon, isTokenExpired, decide_eq_false_iff_not, not_le, he]
      omega
    simp [getValidTokenDecision, hexp]

/-- Witness for C4 at a concrete envelope issued at `T = 10000`. -/
theorem refresh_margin_law_witness :
    (isTokenExpired ⟨some ⟨"at", "rt", 3600, "crm", "d.bitrix24.com", "ep"⟩, some 10000⟩ 11000 5 = false ↔
      (11000 : Int) < 10000 + 3600 - 300) ∧
    getValidTokenDecision ⟨some ⟨"at", "rt", 3600, "crm", "d.bitrix24.com", "ep"⟩, some 10000⟩ (10000 + 3595) = .refresh ∧
    getValidTokenDecision ⟨some ⟨"at", "rt", 3600, "crm", "d.bitrix24.com", "ep"⟩, some 10000⟩ (10000 + 1000) =
      .ok "at" :=
  refresh_margin_law ⟨"at", "rt", 3600, "crm", "d.bitrix24.com", "ep"⟩ 10000 10000 11000
    (by decide) (by decide)

/-- C9: `setTokens` atomicity.  For every malformed envelope (falsy
`access_token` or `domain`, or non-positive `expires_in`), `setTokens`
throws out of `validateTokenStructure` before any assignment, so the held
state is returned unchanged. -/
theorem setTokens_failure_preserves_state (s : TMState) (t : TokenResponse)
    (now : Int) (h : t.access_token = "" ∨ t.domain = "" ∨ t.expires_in ≤ 0) :
    (setTokens s t now).1 = s ∧ (setTokens s t now).2.isSome = true := by
  have hv : (validateTokenStructure t).isSome = true := by
    by_cases h1 : t.access_token = "" <;> by_cases h2 : t.expires_in = 0 <;>
      by_cases h3 : t.domain = "" <;> simp_all [validateTokenStructure]
  unfold setTokens
  rcases hve : validateTokenStructure t with _ | e
  · rw [hve] at hv; simp at hv
  · simp

/-- Witness for C9: a failed `setTokens` call with `expires_in = -5` leaves
the previously held envelope in place. -/
theorem setTokens_failure_preserves_state_witness :
    (setTokens ⟨some ⟨"old", "ort", 3600, "crm", "d.bitrix24.com", "ep"⟩, some 5⟩
        ⟨"new", "nrt", -5, "crm", "d.bitrix24.com", "ep"⟩ 99).1 =
      ⟨some ⟨"old", "ort", 3600, "crm", "d.bitrix24.com", "ep"⟩, some 5⟩ ∧
    (setTokens ⟨some ⟨"old", "ort", 3600, "crm", "d.bitrix24.com", "ep"⟩, some 5⟩
        ⟨"new", "nrt", -5, "crm", "d.bitrix24.com", "ep"⟩ 99).2.isSome = true :=
  setTokens_failure_preserves_state _ _ 99 (by decide)

/-- A concrete `TokenManager` state holding a full credential set, used to
exercise the refresh failure paths. -/
def heldCredentials : TMState :=
  ⟨some ⟨"at0", "rt0", 3600, "crm", "example.bitrix24.com", "ep"⟩, some 1000⟩

/-- C2 (code bug): when the token endpoint answers a refresh with the
`invalid_grant` error body, `BitrixOAuth2.refreshToken` throws the rewritten
message `Refresh token expired or invalid. Re-authentication required.`,
which does not contain the substring `invalid_grant` that
`TokenManager.refreshTokens` tests for — so the held credentials are NOT
cleared and the rewritten error propagates instead of the
re-authentication-required error `Refresh token expired. Re-authentication
required.`. -/
theorem invalid_grant_reply_leaves_credentials_held :
    oauthRefreshToken (.failure 400 "Bad Request" (.json "invalid_grant" none)) =
      .error "Refresh token expired or invalid. Re-authentication required." ∧
    jsIncludes "Refresh token expired or invalid. Re-authentication required."
      "invalid_grant" = false ∧
    (refreshViaEndpoint heldCredentials
      (.failure 400 "Bad Request" (.json "invalid_grant" none)) 2000).1 =
      heldCredentials ∧
    (refreshViaEndpoint heldCredentials
      (.failure 400 "Bad Request" (.json "invalid_grant" none)) 2000).2 =
      .error "Refresh token expired or invalid. Re-authentication required." := by
  refine ⟨by decide, by decide, by decide, by decide⟩

/-- A canonical error with `requiresAuth = true` but `isRetryable = false` —
exactly what the classifier table produces for `NO_AUTH_FOUND`. -/
def authNotRetryableErr : BitrixErrorDetails :=
  ⟨"NO_AUTH_FOUND", "Invalid access token or webhook code", 401, true, false, true⟩

/-- An operation that fails every attempt with `authNotRetryableErr`. -/
def alwaysAuthFail : Nat → Except BitrixErrorDetails Nat :=
  fun _ => .error authNotRetryableErr

/-- C5 counterexample: an attempt failing with a canonical error whose
`requiresAuth` flag is true, with attempts remaining (`maxRetries = 3`),
does NOT invoke the auth-required hook and is NOT retried, because
`handleWithRetry` breaks on `isRetryable = false` before reaching the
auth branch. -/
theorem auth_error_not_retryable_skips_hook :
    authNotRetryableErr.requiresAuth = true ∧
    (0 : Nat) < 3 ∧
    (handleWithRetry alwaysAuthFail 3 1000).authHookCalls = 0 ∧
    (handleWithRetry alwaysAuthFail 3 1000).attemptsMade = 1 ∧
    (handleWithRetry alwaysAuthFail 3 1000).result = .error authNotRetryableErr := by
  refine ⟨rfl, by decide, by decide, by decide, by decide⟩

/-- C5 (amended): for every attempt that fails with a canonical error whose
`requiresAuth` flag is true AND whose `isRetryable` flag is true, while
attempts remain, the auth-required hook is invoked once and the loop
continues with the next attempt immediately, adding no sleep. -/
theorem auth_retryable_error_retries_immediately {α : Type}
    (op : Nat → Except BitrixErrorDetails α)
    (maxRetries retryDelay fuel attempt : Nat) (e : BitrixErrorDetails)
    (hop : op attempt = .error e) (hlt : attempt < maxRetries)
    (hretry : e.isRetryable = true) (hauth : e.requiresAuth = true) :
    retryFrom op maxRetries retryDelay (fuel + 1) attempt =
      prependAttempt 1 0 none (retryFrom op maxRetries retryDelay fuel (attempt + 1)) := by
  have hne : ¬ attempt = maxRetries := Nat.ne_of_lt hlt
  have hauth' : isAuthError e = true := by simp [isAuthError, hauth]
  simp [retryFrom, hop, hne, hretry, hauth']

/-- Witness for C5 (amended) at a concrete retryable auth error. -/
theorem auth_retryable_error_retries_immediately_witness :
    retryFrom (fun _ => .error (⟨"X", "m", 401, false, true, true⟩ : BitrixErrorDetails))
        (2 : Nat) (1000 : Nat) (2 + 1) (0 : Nat) (α := Nat) =
      prependAttempt 1 0 none
        (retryFrom (fun _ => .error (⟨"X", "m", 401, false, true, true⟩ : BitrixErrorDetails))
          2 1000 2 1) :=
  auth_retryable_error_retries_immediately
    (fun _ => .error (⟨"X", "m", 401, false, true, true⟩ : BitrixErrorDetails))
    2 1000 2 0 ⟨"X", "m", 401, false, true, true⟩ rfl (by decide) rfl rfl

/-- Once a refresh promise is in flight, further callers join it: their
atomic prefixes leave the shared state unchanged and they all await the same
promise id. -/
theorem sfStartAll_joins_inFlight (p : Nat) :
    ∀ (n : Nat) (s : SFSystem), s.inFlight = some p →
      sfStartAll n s = (s, List.replicate n p) := by
  intro n
  induction n with
  | zero => intro s _; simp [sfStartAll]
  | succ m ih =>
    intro s h
    simp only [sfStartAll, sfObserve, h, ih s h, List.replicate_succ]

/-- C1: Single-flight refresh.  For every `N ≥ 1`, when `N` concurrent
`getValidToken()` calls each observe "expiring soon with a refresh token
present", exactly one refresh promise (one network refresh call) is created,
all `N` callers await that same promise (id 0), on success every caller
returns the refreshed envelope's `access_token`, and the `finally` block
clears the in-flight marker regardless of the outcome. -/
theorem single_flight_refresh (n : Nat) (hn : 1 ≤ n) :
    (sfStartAll n sfInit).1.promisesCreated = 1 ∧
    (sfStartAll n sfInit).2 = List.replicate n 0 ∧
    (∀ t : TokenResponse, sfCallerReturn (.ok t) = .ok t.access_token) ∧
    (∀ e : String, sfCallerReturn (.error e) = .error e) ∧
    (∀ s : SFSystem, (sfSettle s).inFlight = none) := by
  obtain ⟨m, rfl⟩ : ∃ m, n = m + 1 := ⟨n - 1, by omega⟩
  have hstep : sfStartAll (m + 1) sfInit =
      (⟨some 0, 1⟩, 0 :: List.replicate m 0) := by
    simp only [sfStartAll, sfInit, sfObserve,
      sfStartAll_joins_inFlight 0 m ⟨some 0, 1⟩ rfl]
  refine ⟨by rw [hstep], by rw [hstep, List.replicate_succ], fun t => rfl,
    fun e => rfl, fun s => rfl⟩

/-- Witness for C1 at `n = 3` concurrent callers. -/
theorem single_flight_refresh_witness :
    (sfStartAll 3 sfInit).1.promisesCreated = 1 ∧
    (sfStartAll 3 sfInit).2 = List.replicate 3 0 ∧
    (∀ t : TokenResponse, sfCallerReturn (.ok t) = .ok t.access_token) ∧
    (∀ e : String, sfCallerReturn (.error e) = .error e) ∧
    (∀ s : SFSystem, (sfSettle s).inFlight = none) :=
  single_flight_refresh 3 (by decide)

/-- A successful `List.lookup` pins a member of the association list. -/
theorem lookup_mem {α β : Type} [BEq α] [LawfulBEq α] {l : List (α × β)}
    {a : α} {b : β} (h : l.lookup a = some b) : (a, b) ∈ l := by
  induction l with
  | nil => simp [List.lookup] at h
  | cons p t ih =>
    obtain ⟨k, v⟩ := p
    rw [List.lookup] at h
    by_cases hk : a == k
    · simp only [hk] at h
      obtain rfl := eq_of_beq hk
      obtain rfl : v = b := by injection h
      exact List.mem_cons_self _ _
    · simp only [Bool.not_eq_true] at hk
      simp only [hk] at h
      exact List.mem_cons_of_mem _ (ih h)

/-- Every entry of the classifier table has a non-empty code, a truthy
(non-zero) `httpStatus`, and `isSystemError = true`. -/
theorem systemErrors_entries_sound :
    ∀ p ∈ SYSTEM_ERRORS, p.1 ≠ "" ∧ p.2.httpStatus ≠ 0 ∧ p.2.isSystemError = true := by
  decide

/-- C8: Error classification.  (a) A response body carrying a known code
whose table entry has `isRetryable = true` and `isSystemError = true`
classifies with those flags and the table's `httpStatus`, whatever the
transport status; (b) an unknown non-empty code defaults `isRetryable`,
`requiresAuth` and `isSystemError` to `false` and takes `httpStatus` from
the transport status; (c) a bodyless HTTP 500 response classifies as
`isRetryable = true`. -/
theorem error_classification_law (code : String) (e : SystemErrorEntry)
    (status : Nat) (desc : Option String)
    (hk : SYSTEM_ERRORS.lookup code = some e)
    (hr : e.isRetryable = true) (_hs : e.isSystemError = true)
    (code' : String) (status' : Nat) (desc' : Option String)
    (hu : SYSTEM_ERRORS.lookup code' = none) (hne : code' ≠ "") :
    ((mapHttpResponse status (some (code, desc))).isRetryable = true ∧
     (mapHttpResponse status (some (code, desc))).isSystemError = true ∧
     (mapHttpResponse status (some (code, desc))).httpStatus = e.httpStatus) ∧
    ((mapHttpResponse status' (some (code', desc'))).isRetryable = false ∧
     (mapHttpResponse status' (some (code', desc'))).requiresAuth = false ∧
     (mapHttpResponse status' (some (code', desc'))).isSystemError = false ∧
     (mapHttpResponse status' (some (code', desc'))).httpStatus = status') ∧
    (mapHttpResponse 500 none).isRetryable = true := by
  obtain ⟨hcode, hhttp, _⟩ := systemErrors_entries_sound (code, e) (lookup_mem hk)
  refine ⟨?_, ?_, by decide⟩
  · simp [mapHttpResponse, mapApiError, hcode, hk, hhttp, hr]
  · simp [mapHttpResponse, mapApiError, hne, hu]

/-- Witness for C8: the known code `QUERY_LIMIT_EXCEEDED` (retryable system
error, table status 503) received over transport status 200, and the unknown
code `SOME_UNKNOWN_CODE` over transport status 418. -/
theorem error_classification_law_witness :
    ((mapHttpResponse 200 (some ("QUERY_LIMIT_EXCEEDED", none))).isRetryable = true ∧
     (mapHttpResponse 200 (some ("QUERY_LIMIT_EXCEEDED", none))).isSystemError = true ∧
     (mapHttpResponse 200 (some ("QUERY_LIMIT_EXCEEDED", none))).httpStatus =
       (⟨503, true, true, false, "Request intensity limit has been exceeded"⟩ : SystemErrorEntry).httpStatus) ∧
    ((mapHttpResponse 418 (some ("SOME_UNKNOWN_CODE", none))).isRetryable = false ∧
     (mapHttpResponse 418 (some ("SOME_UNKNOWN_CODE", none))).requiresAuth = false ∧
     (mapHttpResponse 418 (some ("SOME_UNKNOWN_CODE", none))).isSystemError = false ∧
     (mapHttpResponse 418 (some ("SOME_UNKNOWN_CODE", none))).httpStatus = 418) ∧
    (mapHttpResponse 500 none).isRetryable = true :=
  error_classification_law "QUERY_LIMIT_EXCEEDED"
    ⟨503, true, true, false, "Request intensity limit has been exceeded"⟩
    200 none (by decide) rfl rfl "SOME_UNKNOWN_CODE" 418 none (by decide) (by decide)


/-- `Set.add` always leaves the added method in the blocked set. -/
theorem mem_blockedMethodsAdd (l : List String) (m : String) :
    m ∈ blockedMethodsAdd l m := by
  unfold blockedMethodsAdd
  split
  · simpa using ‹l.contains m = true›
  · simp

/-- C3: Admission predicate.  `canMakeRequest(method)` returns true iff the
method is not blocked with a still-active reset instant and the request
counter is strictly below `burstLimit`; a lapsed block is evicted before the
counter check; and after `handleResourceLimitExceeded` records a positive
reset instant for the method, admission for it is denied at every instant
before the reset instant and granted at every instant at or after it
(counter permitting). -/
theorem canMakeRequest_admission (cfg : RateLimitConfig) (s : RLState)
    (nowMs : Int) (m : String) (hnd : s.blockedMethods.Nodup) :
    ((canMakeRequest cfg s nowMs m).1 = true ↔
      (¬(m ∈ s.blockedMethods ∧ blockActive s.operatingResetAt nowMs = true) ∧
        s.requestCounter < cfg.burstLimit)) ∧
    (m ∈ s.blockedMethods →
      blockActive s.operatingResetAt nowMs = false →
      m ∉ (canMakeRequest cfg s nowMs m).2.blockedMethods) ∧
    (∀ reset t : Int, 0 < reset →
      (t < reset * 1000 →
        (canMakeRequest cfg (handleResourceLimitExceeded s m (some reset)) t m).1 = false) ∧
      (reset * 1000 ≤ t → s.requestCounter < cfg.burstLimit →
        (canMakeRequest cfg (handleResourceLimitExceeded s m (some reset)) t m).1 = true)) := by
  refine ⟨?_, ?_, ?_⟩
  · by_cases hc : m ∈ s.blockedMethods
    · by_cases hb : blockActive s.operatingResetAt nowMs
      · simp [canMakeRequest, hc, hb]
      · by_cases hcnt : cfg.burstLimit ≤ s.requestCounter <;>
          simp [canMakeRequest, hc, hb, hcnt] <;> omega
    · by_cases hcnt : cfg.burstLimit ≤ s.requestCounter <;>
        simp [canMakeRequest, hc, hcnt] <;> omega
  · intro hc hb
    by_cases hcnt : cfg.burstLimit ≤ s.requestCounter <;>
      simp [canMakeRequest, hc, hb, hcnt] <;>
      exact hnd.not_mem_erase
  · intro reset t hpos
    have hc : m ∈ (handleResourceLimitExceeded s m (some reset)).blockedMethods := by
      simp [handleResourceLimitExceeded, mem_blockedMethodsAdd]
    have hra : (handleResourceLimitExceeded s m (some reset)).operatingResetAt = some reset := by
      simp [handleResourceLimitExceeded]
    constructor
    · intro ht
      have hb : blockActive (handleResourceLimitExceeded s m (some reset)).operatingResetAt t = true := by
        rw [hra]
        simp [blockActive]
        omega
      simp [canMakeRequest, hc, hb]
    · intro ht hcnt
      have hb : blockActive (handleResourceLimitExceeded s m (some reset)).operatingResetAt t = false := by
        rw [hra]
        simp [blockActive]
        omega
      have hcnt' : (handleResourceLimitExceeded s m (some reset)).requestCounter = s.requestCounter := by
        simp [handleResourceLimitExceeded]
      have hle : ¬ cfg.burstLimit ≤ s.requestCounter := Nat.not_le.mpr hcnt
      simp [canMakeRequest, hc, hb, hcnt', hle]

/-- Witness for C3: from a fresh limiter state, a resource-exhausted record
for method `X` with reset instant 120 (unix seconds) denies admission for
`X` at millisecond 119999 and grants it at millisecond 120000. -/
theorem canMakeRequest_admission_witness :
    (canMakeRequest defaultConfig
      (handleResourceLimitExceeded (initialRLState 0) "X" (some 120)) 119999 "X").1 = false ∧
    (canMakeRequest defaultConfig
      (handleResourceLimitExceeded (initialRLState 0) "X" (some 120)) 120000 "X").1 = true :=
  ⟨((canMakeRequest_admission defaultConfig (initialRLState 0) 119999 "X"
      (by decide)).2.2 120 119999 (by decide)).1 (by decide),
   ((canMakeRequest_admission defaultConfig (initialRLState 0) 120000 "X"
      (by decide)).2.2 120 120000 (by decide)).2 (by decide) (by decide)⟩

/-- A configuration with queueing disabled and otherwise default values. -/
def noQueueConfig : RateLimitConfig :=
  { defaultConfig with enableQueueing := false }

/-- A limiter state whose counter has reached the burst limit, so that
`canMakeRequest` denies every method. -/
def saturatedState : RLState :=
  { initialRLState 0 with requestCounter := 50 }

/-- C6 counterexample: with queueing disabled and admission denied at
submission time (counter at the burst limit), the submitted unit's work IS
dispatched immediately — no admission wait event occurs — contradicting the
claim that execution is deferred by one admission wait and that the work is
not dispatched while admission is denied. -/
theorem no_queue_dispatches_while_denied :
    (canMakeRequest noQueueConfig saturatedState 1000 "crm.lead.list").1 = false ∧
    executeRequestModel noQueueConfig saturatedState ⟨"req1", "crm.lead.list", 0, 1000, 0⟩ 1000 5 =
      some ({ saturatedState with requestCounter := 51, lastRequestTime := 1000 },
            [.counterIncremented, .workDispatched "req1"]) := by
  refine ⟨by decide, by decide⟩

/-- C6 (amended): for every unit submitted while queueing is disabled, the
unit is executed inline immediately: the source performs no admission check
and no wait on this path — the counter is incremented and the work
dispatched unconditionally, even when `canMakeRequest` would deny the
method. -/
theorem no_queue_executes_inline (cfg : RateLimitConfig) (s : RLState)
    (r : QueuedRequest) (nowMs : Int) (fuel : Nat)
    (h : cfg.enableQueueing = false) :
    executeRequestModel cfg s r nowMs fuel =
      some ({ s with requestCounter := s.requestCounter + 1, lastRequestTime := nowMs },
            [.counterIncremented, .workDispatched r.id]) := by
  simp [executeRequestModel, h, executeQueuedRequest]

/-- Witness for C6 (amended) at the saturated state. -/
theorem no_queue_executes_inline_witness :
    executeRequestModel noQueueConfig saturatedState ⟨"req2", "crm.lead.list", 0, 1000, 0⟩ 1000 5 =
      some ({ saturatedState with requestCounter := 51, lastRequestTime := 1000 },
            [.counterIncremented, .workDispatched "req2"]) :=
  no_queue_executes_inline noQueueConfig saturatedState ⟨"req2", "crm.lead.list", 0, 1000, 0⟩
    1000 5 (by decide)

/-- The queue comparator is transitive. -/
theorem queueLE_trans (a b c : QueuedRequest) (hab : queueLE a b = true)
    (hbc : queueLE b c = true) : queueLE a c = true := by
  simp only [queueLE, Bool.or_eq_true, Bool.and_eq_true, decide_eq_true_eq,
    beq_iff_eq] at hab hbc ⊢
  omega

/-- The queue comparator is total. -/
theorem queueLE_total (a b : QueuedRequest) :
    (queueLE a b || queueLE b a) = true := by
  simp only [queueLE, Bool.or_eq_true, Bool.and_eq_true, decide_eq_true_eq,
    beq_iff_eq]
  omega

instance : IsTotal QueuedRequest (fun a b => queueLE a b = true) :=
  ⟨fun a b => by simpa [Bool.or_eq_true] using queueLE_total a b⟩

instance : IsTrans QueuedRequest (fun a b => queueLE a b = true) :=
  ⟨fun a b c => queueLE_trans a b c⟩

/-- The identifiers of the units dispatched in an event list, in order. -/
def dispatchedIds (evs : List RLEvent) : List String :=
  evs.filterMap fun e =>
    match e with
    | .workDispatched i => some i
    | _ => none

/-- The three units of the priority example: priorities 0, 100, -100
submitted in that order (timestamps 0, 1, 2). -/
def midUnit : QueuedRequest := ⟨"mid", "crm.deal.list", 0, 0, 0⟩

/-- Second submitted unit, priority 100. -/
def highUnit : QueuedRequest := ⟨"high", "crm.deal.list", 100, 1, 0⟩

/-- Third submitted unit, priority -100. -/
def lowUnit : QueuedRequest := ⟨"low", "crm.deal.list", -100, 2, 0⟩

/-- The limiter state after enqueueing the three example units in
submission order. -/
def threeUnitState : RLState :=
  (addToQueue defaultConfig
    (addToQueue defaultConfig
      (addToQueue defaultConfig (initialRLState 0) midUnit 2).1 highUnit 2).1
    lowUnit 2).1

/-- C7: Queue-order invariant.  After every insert the pending queue is
sorted by the comparator (priority descending, then enqueue timestamp
ascending) — including the reject-at-capacity case, which leaves a sorted
queue sorted — and draining the queue built by submitting priorities
[0, 100, -100] in that order services the units in order
[100, 0, -100]. -/
theorem queue_order_invariant (cfg : RateLimitConfig) (s : RLState)
    (r : QueuedRequest) (nowMs : Int)
    (hs : s.requestQueue.Pairwise (fun a b => queueLE a b = true)) :
    (addToQueue cfg s r nowMs).1.requestQueue.Pairwise
      (fun a b => queueLE a b = true) ∧
    (processQueue defaultConfig 2 10 threeUnitState).map
      (fun p => dispatchedIds p.2) = some ["high", "mid", "low"] := by
  constructor
  · unfold addToQueue
    split
    · exact hs
    · exact List.Pairwise.filter _
        (List.sorted_insertionSort (fun a b => queueLE a b = true) (s.requestQueue ++ [r]))
  · decide

/-- Witness for C7: inserting into the empty queue preserves sortedness, and
the concrete three-unit drain services [high, mid, low]. -/
theorem queue_order_invariant_witness :
    (addToQueue defaultConfig (initialRLState 0) midUnit 2).1.requestQueue.Pairwise
      (fun a b => queueLE a b = true) ∧
    (processQueue defaultConfig 2 10 threeUnitState).map
      (fun p => dispatchedIds p.2) = some ["high", "mid", "low"] :=
  queue_order_invariant defaultConfig (initialRLState 0) midUnit 2 List.Pairwise.nil


/-- Whenever the drain loop terminates, it does so by reaching an empty
queue, at which point it lowers the `processingQueue` flag. -/
theorem drainLoop_exits_empty (cfg : RateLimitConfig) (nowMs : Int) :
    ∀ (fuel : Nat) (s s' : RLState) (evs : List RLEvent),
      drainLoop cfg nowMs fuel s = some (s', evs) →
      s'.requestQueue = [] ∧ s'.processingQueue = false := by
  intro fuel
  induction fuel with
  | zero => intro s s' evs h; simp [drainLoop] at h
  | succ n ih =>
    intro s s' evs h
    rw [drainLoop] at h
    split at h
    · rename_i heq
      cases h
      exact ⟨heq, rfl⟩
    · split at h
      · obtain ⟨p, hp, hpe⟩ := Option.map_eq_some'.mp h
        cases hpe
        exact ih _ p.1 p.2 hp
      · split at h
        · obtain ⟨p, hp, hpe⟩ := Option.map_eq_some'.mp h
          cases hpe
          exact ih _ p.1 p.2 hp
        · obtain ⟨p, hp, hpe⟩ := Option.map_eq_some'.mp h
          cases hpe
          exact ih _ p.1 p.2 hp

/-- C10: Single drain loop.  A `processQueue` call made while a drain loop is
already running, or while the queue is empty, returns immediately with the
state untouched and no unit inspected, popped or dispatched; and whenever a
drain started by `processQueue` terminates, the final state has an empty
queue and the `processingQueue` flag lowered — the flag is cleared exactly on
loop exit with an empty queue. -/
theorem processQueue_single_drain (cfg : RateLimitConfig) (nowMs : Int)
    (fuel : Nat) (s : RLState) :
    (s.processingQueue = true ∨ s.requestQueue = [] →
      processQueue cfg nowMs fuel s = some (s, [])) ∧
    (s.processingQueue = false →
      ∀ s' evs, processQueue cfg nowMs fuel s = some (s', evs) →
        s'.requestQueue = [] ∧ s'.processingQueue = false) := by
  constructor
  · intro h
    rcases h with h | h <;> simp [processQueue, h]
  · intro hflag s' evs h
    unfold processQueue at h
    split at h
    · rename_i hguard
      rcases (Bool.or_eq_true _ _).mp hguard with hg | hg
      · rw [hflag] at hg; cases hg
      · cases h
        exact ⟨List.isEmpty_iff.mp hg, hflag⟩
    · exact drainLoop_exits_empty cfg nowMs fuel _ s' evs h

/-- A limiter whose drain loop is already running over a one-element queue. -/
def busyDrainState : RLState :=
  { initialRLState 0 with
      processingQueue := true
      requestQueue := [⟨"a", "m", 0, 0, 0⟩] }

/-- A limiter with a one-element queue and no drain loop running. -/
def idleOneState : RLState :=
  { initialRLState 0 with requestQueue := [⟨"a", "m", 0, 0, 0⟩] }

/-- The state left behind by draining `idleOneState` at millisecond 3. -/
def drainedState : RLState :=
  { initialRLState 0 with requestCounter := 1, lastRequestTime := 3 }

/-- Witness for C10: a busy-flagged state is returned untouched, and a fresh
drain over a one-element queue ends with an empty queue and a lowered flag. -/
theorem processQueue_single_drain_witness :
    processQueue defaultConfig 3 4 busyDrainState = some (busyDrainState, []) ∧
    (drainedState.requestQueue = [] ∧ drainedState.processingQueue = false) :=
  ⟨(processQueue_single_drain defaultConfig 3 4 busyDrainState).1 (Or.inl rfl),
   (processQueue_single_drain defaultConfig 3 4 idleOneState).2 rfl
     drainedState [.counterIncremented, .workDispatched "a"] (by decide)⟩
